import Mathlib

/-!
Verification of the `create` function of `salt/modules/virtualenv_mod.py`.

The function assembles a command line for one of two virtual-environment
builders (the legacy `virtualenv` tool, or the standard-library `pyvenv`
builder), validating the supplied options against the selected backend, and
then hands the assembled command to the `cmd.run_all` executor.

The embedding below models the function as a pure computation over an
explicit environment `PyEnv` capturing the external collaborators
(binary lookup, the importable `virtualenv` module's version attribute, and
the `cmd.run_all` executor used both for the version probe and the final
command).
-/

/-- Structured result of running an external command via `cmd.run_all`:
exit code, captured stdout and stderr. -/
structure ExecResult where
  retcode : Int
  stdout : String
  stderr : String
deriving DecidableEq

/-- Typed failures raised by `create` (all `CommandExecutionError` in the
source except `binaryNotFound`, which is `CommandNotFoundError`, and
`pyValueError`, which models an uncaught Python `ValueError` from `int()`
on unparsable version text). `unsupportedOption` carries the name of the
offending option and the backend binary, which the source embeds in the
exception message. -/
inductive Err where
  | binaryNotFound (bin : String)
  | mutuallyExclusiveOptions
  | unsupportedOption (opt bin : String)
  | versionProbeFailed (cmd : String)
  | pyValueError
deriving DecidableEq

/-- The `extra_search_dir` argument may be a single string or a list of
strings (the source tests `isinstance(extra_search_dir, basestring)`). -/
inductive ExtraSearchDir where
  | str (s : String)
  | list (l : List String)
deriving DecidableEq

/-- The keyword arguments of `create`, with the source's defaults. -/
structure CreationOptions where
  path : String
  venv_bin : Option String := none
  no_site_packages : Option Bool := none
  system_site_packages : Bool := false
  distribute : Bool := false
  clear : Bool := false
  python : Option String := none
  extra_search_dir : Option ExtraSearchDir := none
  never_download : Option Bool := none
  prompt : Option String := none
  symlinks : Option Bool := none
  upgrade : Option Bool := none
  runas : Option String := none
deriving DecidableEq

/-- Modelled from the spec: the external collaborators of `create`.
`whichOk` models `salt.utils.check_or_die` (binary lookup on PATH; the
helper itself lives outside this repository slice) — `true` means the
binary resolves.  `importVersion` is `virtualenv.__version__` when
`import virtualenv` succeeds, `none` when it raises `ImportError`.
`run_all` is the `__salt__['cmd.run_all']` executor, used both for the
`--version` probe and for the final creation command. -/
structure PyEnv where
  whichOk : String → Bool
  importVersion : Option String
  run_all : String → ExecResult

/-- The characters Python's `str.strip()` removes. -/
def isPySpace (c : Char) : Bool :=
  c == ' ' || c == '\t' || c == '\n' || c == '\r' || c == '\x0b' || c == '\x0c'

/-- Python `str.strip()` on a character list: drop whitespace from both
ends. -/
def pyStripL (l : List Char) : List Char :=
  ((l.dropWhile isPySpace).reverse.dropWhile isPySpace).reverse

/-- Python `str.strip()`. -/
def pyStrip (s : String) : String :=
  ⟨pyStripL s.data⟩

/-- Python `str.split(sep)` for a one-character separator, on character
lists: `"a,,b"` splits into `["a", "", "b"]`. -/
def splitOnCharL (sep : Char) : List Char → List (List Char)
  | [] => [[]]
  | c :: rest =>
    if c = sep then [] :: splitOnCharL sep rest
    else
      match splitOnCharL sep rest with
      | [] => [[c]]
      | h :: t => (c :: h) :: t

/-- Python `str.split(sep)` for a one-character separator. -/
def pySplitChar (s : String) (sep : Char) : List String :=
  (splitOnCharL sep s.data).map String.mk

/-- `s.split(sep)[0]` for a non-empty separator: everything before the
first occurrence of `sep`, or all of `s` when `sep` does not occur. -/
def beforeSubL (sep : List Char) : List Char → List Char
  | [] => []
  | c :: rest => if sep.isPrefixOf (c :: rest) then [] else c :: beforeSubL sep rest

/-- Substring containment on character lists. -/
def containsSubL (sep : List Char) : List Char → Bool
  | [] => sep.isEmpty
  | c :: rest => sep.isPrefixOf (c :: rest) || containsSubL sep rest

/-- Python substring containment `needle in hay`. -/
def strContains (hay needle : String) : Bool :=
  containsSubL needle.data hay.data

/-- `s` starts with `p`, on the underlying character lists. -/
def tokStarts (s p : String) : Bool :=
  p.data.isPrefixOf s.data

/-- Python `sep.join(parts)`. -/
def pyJoin (sep : String) : List String → String
  | [] => ""
  | [x] => x
  | x :: y :: rest => x ++ sep ++ pyJoin sep (y :: rest)

/-- Resolution of the `venv_bin` default: `__opts__.get('venv_bin') or
__pillar__.get('venv_bin')` with the module-level dictionaries of the
source, i.e. `'virtualenv'`. -/
def resolveVenvBin (vb : Option String) : String :=
  vb.getD "virtualenv"

/-- Numeric value of a digit string. -/
def digitsVal (l : List Char) : Nat :=
  l.foldl (fun n c => n * 10 + (c.toNat - 48)) 0

/-- Python `int()` on a string: surrounding whitespace is tolerated, the
digits are parsed, anything else is a `ValueError` (`none`). -/
def pyInt (s : String) : Option Nat :=
  let t := pyStripL s.data
  if t ≠ [] ∧ t.all Char.isDigit then some (digitsVal t) else none

/-- `tuple([int(i) for i in s.split('rc')[0].split('.')])`: keep what
precedes any release-candidate suffix, split on dots, parse each
component; a component `int()` rejects makes the whole parse a
`ValueError` (`none`). -/
def parseVersion (s : String) : Option (List Nat) :=
  (pySplitChar ⟨beforeSubL "rc".data s.data⟩ '.').mapM pyInt

/-- Python lexicographic tuple comparison `a < b` (a strict prefix is
smaller). -/
def tupLt : List Nat → List Nat → Bool
  | [], [] => false
  | [], _ :: _ => true
  | _ :: _, [] => false
  | a :: as, b :: bs => if a < b then true else if b < a then false else tupLt as bs

/-- Python tuple comparison `a >= b`. -/
def tupGe (a b : List Nat) : Bool :=
  ! tupLt a b

/-- Lines 120-138 of the source: determine `VIRTUALENV_VERSION_INFO`.
Prefer `virtualenv.__version__` in-process; on `ImportError` run
`<venv_bin> --version` through the executor, fail with
`versionProbeFailed` on a positive exit code, and otherwise parse the
stripped stdout the same way. -/
def getVersionInfo (bin : String) (env : PyEnv) : Except Err (List Nat) :=
  match env.importVersion with
  | some vs =>
    match parseVersion vs with
    | some v => .ok v
    | none => .error .pyValueError
  | none =>
    let ret := env.run_all (bin ++ " --version")
    if ret.retcode > 0 then
      .error (.versionProbeFailed (bin ++ " --version"))
    else
      match parseVersion (pyStrip ret.stdout) with
      | some v => .ok v
      | none => .error .pyValueError

/-- Legacy flag: `--no-site-packages` when `no_site_packages is True`. -/
def nspToks (opts : CreationOptions) : List String :=
  if opts.no_site_packages = some true then ["--no-site-packages"] else []

/-- Legacy flag: `--distribute` when `distribute` is truthy, suppressed
(with only a log message) when the tool version is at least `(1, 10)`. -/
def distToks (opts : CreationOptions) (v : List Nat) : List String :=
  if opts.distribute then
    if tupGe v [1, 10] then [] else ["--distribute"]
  else []

/-- Legacy flag: `--python=<value>` when `python` is truthy (non-`None`
and non-empty). -/
def pythonToks (opts : CreationOptions) : List String :=
  match opts.python with
  | some p => if p = "" then [] else ["--python=" ++ p]
  | none => []

/-- Legacy flags from `extra_search_dir`: a single string containing a
comma is split on commas with each element stripped; a comma-free string
is wrapped verbatim; a list is used as given.  One
`--extra-search-dir=<entry>` token per element, in order. -/
def esdToks (opts : CreationOptions) : List String :=
  match opts.extra_search_dir with
  | none => []
  | some (.str s) =>
    (if strContains s "," then (pySplitChar s ',').map pyStrip else [s]).map
      (fun e => "--extra-search-dir=" ++ e)
  | some (.list l) => l.map (fun e => "--extra-search-dir=" ++ e)

/-- Legacy flag: `--never-download` when `never_download is True`, with the
same `(1, 10)` version-gated suppression as `--distribute`. -/
def ndToks (opts : CreationOptions) (v : List Nat) : List String :=
  if opts.never_download = some true then
    if tupGe v [1, 10] then [] else ["--never-download"]
  else []

/-- Legacy flag: `--prompt=<value>` when `prompt` is truthy. -/
def promptToks (opts : CreationOptions) : List String :=
  match opts.prompt with
  | some p => if p = "" then [] else ["--prompt=" ++ p]
  | none => []

/-- Standard flag: `--upgrade` when `upgrade is True`. -/
def upgradeToks (opts : CreationOptions) : List String :=
  if opts.upgrade = some true then ["--upgrade"] else []

/-- Standard flag: `--symlinks` when `symlinks is True`. -/
def symToks (opts : CreationOptions) : List String :=
  if opts.symlinks = some true then ["--symlinks"] else []

/-- Common flags for both backends: `--clear` then
`--system-site-packages`, each when its option `is True`. -/
def commonToks (opts : CreationOptions) : List String :=
  (if opts.clear then ["--clear"] else []) ++
    (if opts.system_site_packages then ["--system-site-packages"] else [])

/-- The command-assembly portion of `create` (lines 75-221): resolve the
binary, validate, probe the version when on the legacy branch, and build
the ordered token list, ending with the target path. -/
def create_cmd (opts : CreationOptions) (env : PyEnv) : Except Err (List String) :=
  let venv_bin := resolveVenvBin opts.venv_bin
  if env.whichOk venv_bin then
    if opts.no_site_packages = some true ∧ opts.system_site_packages = true then
      .error .mutuallyExclusiveOptions
    else
      if strContains venv_bin "pyvenv" then
        if opts.no_site_packages ≠ none then
          .error (.unsupportedOption "no_site_packages" venv_bin)
        else if opts.python ≠ none then
          .error (.unsupportedOption "python" venv_bin)
        else if opts.extra_search_dir ≠ none then
          .error (.unsupportedOption "extra_search_dir" venv_bin)
        else if opts.never_download ≠ none then
          .error (.unsupportedOption "never_download" venv_bin)
        else if opts.prompt ≠ none then
          .error (.unsupportedOption "prompt" venv_bin)
        else
          .ok ([venv_bin] ++ upgradeToks opts ++ symToks opts ++
            commonToks opts ++ [opts.path])
      else
        if opts.upgrade ≠ none then
          .error (.unsupportedOption "upgrade" venv_bin)
        else if opts.symlinks ≠ none then
          .error (.unsupportedOption "symlinks" venv_bin)
        else
          match getVersionInfo venv_bin env with
          | .error e => .error e
          | .ok v =>
            .ok ([venv_bin] ++ nspToks opts ++ distToks opts v ++
              pythonToks opts ++ esdToks opts ++ ndToks opts v ++
              promptToks opts ++ commonToks opts ++ [opts.path])
  else
    .error (.binaryNotFound venv_bin)

/-- The whole of `create`: assemble the command and, on success, return
the executor's structured result for `' '.join(cmd)` unchanged (line 223). -/
def create (opts : CreationOptions) (env : PyEnv) : Except Err ExecResult :=
  match create_cmd opts env with
  | .error e => .error e
  | .ok cmd => .ok (env.run_all (pyJoin " " cmd))

/-- A benign environment for concrete evaluations: every binary resolves,
`virtualenv` imports at version `1.9.1`, and every executed command
succeeds. -/
def sampleEnv : PyEnv :=
  { whichOk := fun _ => true
    importVersion := some "1.9.1"
    run_all := fun _ => ⟨0, "", ""⟩ }

/-- C1: `no_site_packages = True` together with `system_site_packages =
True` always fails with `MutuallyExclusiveOptions`, for every other field
(in particular for both backends), and the failure is independent of the
probe and executor parts of the environment (no flag is emitted and no
process is spawned), since `env.importVersion` and `env.run_all` are
universally quantified here. -/
theorem create_mutually_exclusive (opts : CreationOptions) (env : PyEnv)
    (h1 : opts.no_site_packages = some true)
    (h2 : opts.system_site_packages = true)
    (h3 : env.whichOk (resolveVenvBin opts.venv_bin) = true) :
    create opts env = .error .mutuallyExclusiveOptions := by
  simp [create, create_cmd, h1, h2, h3]

/-- C1 witness: the mutual-exclusion failure at a concrete input. -/
theorem create_mutually_exclusive_w :
    create { path := "/tmp/env", no_site_packages := some true,
             system_site_packages := true } sampleEnv =
      .error .mutuallyExclusiveOptions :=
  create_mutually_exclusive _ _ rfl rfl rfl

/-- Shape of a successful legacy-backend run of the assembler. -/
theorem create_cmd_legacy_eq (opts : CreationOptions) (env : PyEnv) (v : List Nat)
    (hwhich : env.whichOk (resolveVenvBin opts.venv_bin) = true)
    (hleg : strContains (resolveVenvBin opts.venv_bin) "pyvenv" = false)
    (hmx : ¬(opts.no_site_packages = some true ∧ opts.system_site_packages = true))
    (hup : opts.upgrade = none)
    (hsym : opts.symlinks = none)
    (hv : getVersionInfo (resolveVenvBin opts.venv_bin) env = .ok v) :
    create_cmd opts env =
      .ok ([resolveVenvBin opts.venv_bin] ++ nspToks opts ++ distToks opts v ++
        pythonToks opts ++ esdToks opts ++ ndToks opts v ++ promptToks opts ++
        commonToks opts ++ [opts.path]) := by
  simp [create_cmd, hwhich, hleg, hmx, hup, hsym, hv]

/-- Shape of a successful standard-backend run of the assembler. -/
theorem create_cmd_standard_eq (opts : CreationOptions) (env : PyEnv)
    (hwhich : env.whichOk (resolveVenvBin opts.venv_bin) = true)
    (hstd : strContains (resolveVenvBin opts.venv_bin) "pyvenv" = true)
    (hnsp : opts.no_site_packages = none)
    (hpy : opts.python = none)
    (hesd : opts.extra_search_dir = none)
    (hnd : opts.never_download = none)
    (hpr : opts.prompt = none) :
    create_cmd opts env =
      .ok ([resolveVenvBin opts.venv_bin] ++ upgradeToks opts ++ symToks opts ++
        commonToks opts ++ [opts.path]) := by
  simp [create_cmd, hwhich, hstd, hnsp, hpy, hesd, hnd, hpr]

/-- A legacy-backend option set that also sets both halves of the
mutually exclusive pair, plus `upgrade`. -/
def cexOpts4 : CreationOptions :=
  { path := "/tmp/env", no_site_packages := some true,
    system_site_packages := true, upgrade := some true }

/-- C4 counterexample: the backend is legacy (`virtualenv`) and `upgrade`
is explicitly set, yet `create` fails with `MutuallyExclusiveOptions`
rather than `UnsupportedOption`, because the mutual-exclusion check of
line 93 runs before the backend-specific validation of lines 107-116. -/
theorem legacy_unsupported_cex :
    strContains (resolveVenvBin cexOpts4.venv_bin) "pyvenv" = false ∧
    cexOpts4.upgrade ≠ none ∧
    create cexOpts4 sampleEnv = .error .mutuallyExclusiveOptions ∧
    ∀ o b : String, create cexOpts4 sampleEnv ≠ .error (.unsupportedOption o b) := by
  refine ⟨rfl, by simp [cexOpts4], rfl, ?_⟩
  intro o b h
  rw [show create cexOpts4 sampleEnv = .error .mutuallyExclusiveOptions from rfl] at h
  injection h with h2
  exact Err.noConfusion h2

/-- C4 (amended): for a legacy backend whose binary resolves, with the
mutually exclusive `no_site_packages`/`system_site_packages` pair not both
true, an explicitly set `upgrade` or `symlinks` makes `create` fail with
`UnsupportedOption`, naming the offending option and the backend. -/
theorem legacy_unsupported (opts : CreationOptions) (env : PyEnv)
    (hwhich : env.whichOk (resolveVenvBin opts.venv_bin) = true)
    (hleg : strContains (resolveVenvBin opts.venv_bin) "pyvenv" = false)
    (hmx : ¬(opts.no_site_packages = some true ∧ opts.system_site_packages = true))
    (hset : opts.upgrade ≠ none ∨ opts.symlinks ≠ none) :
    ∃ o, (o = "upgrade" ∨ o = "symlinks") ∧
      create opts env = .error (.unsupportedOption o (resolveVenvBin opts.venv_bin)) := by
  by_cases hup : opts.upgrade = none
  · have hsym : opts.symlinks ≠ none := by
      rcases hset with h | h
      · exact absurd hup h
      · exact h
    exact ⟨"symlinks", Or.inr rfl, by simp [create, create_cmd, hwhich, hleg, hmx, hup, hsym]⟩
  · exact ⟨"upgrade", Or.inl rfl, by simp [create, create_cmd, hwhich, hleg, hmx, hup]⟩

/-- C4 witness: `symlinks = False` (explicitly set) on the legacy backend. -/
theorem legacy_unsupported_w :
    ∃ o, (o = "upgrade" ∨ o = "symlinks") ∧
      create { path := "/tmp/env", symlinks := some false } sampleEnv =
        .error (.unsupportedOption o "virtualenv") :=
  legacy_unsupported { path := "/tmp/env", symlinks := some false } sampleEnv
    rfl rfl (by simp) (Or.inr (by simp))

/-- A standard-backend option set that also sets both halves of the
mutually exclusive pair (so `no_site_packages`, one of the five
unsupported options, is explicitly set). -/
def cexOpts3 : CreationOptions :=
  { path := "/tmp/env", venv_bin := some "pyvenv",
    no_site_packages := some true, system_site_packages := true }

/-- C3 counterexample: the backend is standard (`pyvenv`) and
`no_site_packages` — one of the five options the claim covers — is
explicitly set, yet `create` fails with `MutuallyExclusiveOptions` rather
than `UnsupportedOption`: the mutual-exclusion check of line 93 runs
before the backend-specific validation of lines 182-206. -/
theorem standard_unsupported_cex :
    strContains (resolveVenvBin cexOpts3.venv_bin) "pyvenv" = true ∧
    cexOpts3.no_site_packages ≠ none ∧
    create cexOpts3 sampleEnv = .error .mutuallyExclusiveOptions ∧
    ∀ o b : String, create cexOpts3 sampleEnv ≠ .error (.unsupportedOption o b) := by
  refine ⟨rfl, by simp [cexOpts3], rfl, ?_⟩
  intro o b h
  rw [show create cexOpts3 sampleEnv = .error .mutuallyExclusiveOptions from rfl] at h
  injection h with h2
  exact Err.noConfusion h2

/-- C3 (amended): for a standard backend whose binary resolves, with the
mutually exclusive `no_site_packages`/`system_site_packages` pair not both
true, explicitly setting any of `no_site_packages`, `python`,
`extra_search_dir`, `never_download` or `prompt` makes `create` fail with
`UnsupportedOption`, naming the offending option and the backend. -/
theorem standard_unsupported (opts : CreationOptions) (env : PyEnv)
    (hwhich : env.whichOk (resolveVenvBin opts.venv_bin) = true)
    (hstd : strContains (resolveVenvBin opts.venv_bin) "pyvenv" = true)
    (hmx : ¬(opts.no_site_packages = some true ∧ opts.system_site_packages = true))
    (hset : opts.no_site_packages ≠ none ∨ opts.python ≠ none ∨
      opts.extra_search_dir ≠ none ∨ opts.never_download ≠ none ∨
      opts.prompt ≠ none) :
    ∃ o, (o = "no_site_packages" ∨ o = "python" ∨ o = "extra_search_dir" ∨
        o = "never_download" ∨ o = "prompt") ∧
      create opts env = .error (.unsupportedOption o (resolveVenvBin opts.venv_bin)) := by
  by_cases hnsp : opts.no_site_packages = none
  · by_cases hpy : opts.python = none
    · by_cases hesd : opts.extra_search_dir = none
      · by_cases hnd : opts.never_download = none
        · have hpr : opts.prompt ≠ none := by
            rcases hset with h | h | h | h | h
            · exact absurd hnsp h
            · exact absurd hpy h
            · exact absurd hesd h
            · exact absurd hnd h
            · exact h
          exact ⟨"prompt", by simp, by
            simp [create, create_cmd, hwhich, hstd, hmx, hnsp, hpy, hesd, hnd, hpr]⟩
        · exact ⟨"never_download", by simp, by
            simp [create, create_cmd, hwhich, hstd, hmx, hnsp, hpy, hesd, hnd]⟩
      · exact ⟨"extra_search_dir", by simp, by
          simp [create, create_cmd, hwhich, hstd, hmx, hnsp, hpy, hesd]⟩
    · exact ⟨"python", by simp, by
        simp [create, create_cmd, hwhich, hstd, hmx, hnsp, hpy]⟩
  · exact ⟨"no_site_packages", by simp, by
      simp [create, create_cmd, hwhich, hstd, hmx, hnsp]⟩

/-- C3 witness: `prompt` set on the standard backend. -/
theorem standard_unsupported_w :
    ∃ o, (o = "no_site_packages" ∨ o = "python" ∨ o = "extra_search_dir" ∨
        o = "never_download" ∨ o = "prompt") ∧
      create { path := "/tmp/env", venv_bin := some "pyvenv",
               prompt := some "venv" } sampleEnv =
        .error (.unsupportedOption o "pyvenv") :=
  standard_unsupported
    { path := "/tmp/env", venv_bin := some "pyvenv", prompt := some "venv" }
    sampleEnv rfl rfl (by simp) (by simp)

/-- On the legacy branch, once the `upgrade`/`symlinks` validation has
passed, the assembler is the version probe followed by flag emission. -/
theorem create_cmd_legacy_version (opts : CreationOptions) (env : PyEnv)
    (hwhich : env.whichOk (resolveVenvBin opts.venv_bin) = true)
    (hleg : strContains (resolveVenvBin opts.venv_bin) "pyvenv" = false)
    (hmx : ¬(opts.no_site_packages = some true ∧ opts.system_site_packages = true))
    (hup : opts.upgrade = none)
    (hsym : opts.symlinks = none) :
    create_cmd opts env =
      match getVersionInfo (resolveVenvBin opts.venv_bin) env with
      | .error e => .error e
      | .ok v =>
        .ok ([resolveVenvBin opts.venv_bin] ++ nspToks opts ++ distToks opts v ++
          pythonToks opts ++ esdToks opts ++ ndToks opts v ++ promptToks opts ++
          commonToks opts ++ [opts.path]) := by
  simp [create_cmd, hwhich, hleg, hmx, hup, hsym]

/-- An environment in which `virtualenv` is not importable and every
executed command exits with code 1. -/
def probeFailEnv : PyEnv :=
  { whichOk := fun _ => true
    importVersion := none
    run_all := fun _ => ⟨1, "", ""⟩ }

/-- C2 counterexample: with the legacy backend, `distribute = False` and
`never_download` absent, no version information is needed — yet `create`
still consults the version prober (lines 120-138 run unconditionally on
the legacy branch) and fails with `VersionProbeFailed` when the probe
exits non-zero. -/
theorem version_probe_eager_cex :
    ({ path := "/tmp/env" } : CreationOptions).distribute = false ∧
    ({ path := "/tmp/env" } : CreationOptions).never_download = none ∧
    create { path := "/tmp/env" } probeFailEnv =
      .error (.versionProbeFailed "virtualenv --version") :=
  ⟨rfl, rfl, rfl⟩

/-- C2 (amended): for the legacy backend the version probe is eager, not
lazy — it runs on every call that passes the `upgrade`/`symlinks`
validation, whether or not `distribute` or `never_download` is set — and
`VersionProbeFailed` is raised exactly when in-process introspection is
unavailable and the console probe exits with a positive code (unparsable
probe output instead surfaces as an untyped `ValueError`). -/
theorem version_probe_failed_iff (opts : CreationOptions) (env : PyEnv)
    (hwhich : env.whichOk (resolveVenvBin opts.venv_bin) = true)
    (hleg : strContains (resolveVenvBin opts.venv_bin) "pyvenv" = false)
    (hmx : ¬(opts.no_site_packages = some true ∧ opts.system_site_packages = true))
    (hup : opts.upgrade = none)
    (hsym : opts.symlinks = none) :
    (∃ c, create opts env = .error (.versionProbeFailed c)) ↔
      (env.importVersion = none ∧
        (env.run_all (resolveVenvBin opts.venv_bin ++ " --version")).retcode > 0) := by
  have h0 := create_cmd_legacy_version opts env hwhich hleg hmx hup hsym
  rcases hi : env.importVersion with _ | vs
  · by_cases hrc : (env.run_all (resolveVenvBin opts.venv_bin ++ " --version")).retcode > 0
    · simp [create, h0, getVersionInfo, hi, hrc]
    · rcases hp : parseVersion (pyStrip (env.run_all (resolveVenvBin opts.venv_bin ++ " --version")).stdout) with _ | v
      · simp [create, h0, getVersionInfo, hi, hrc, hp]
      · simp [create, h0, getVersionInfo, hi, hrc, hp]
  · rcases hp : parseVersion vs with _ | v
    · simp [create, h0, getVersionInfo, hi, hp]
    · simp [create, h0, getVersionInfo, hi, hp]

/-- C2 witness: the amended equivalence at a concrete failing probe. -/
theorem version_probe_failed_iff_w :
    ∃ c, create { path := "/tmp/env" } probeFailEnv =
      .error (.versionProbeFailed c) :=
  (version_probe_failed_iff { path := "/tmp/env" } probeFailEnv rfl rfl
    (by simp) rfl rfl).mpr ⟨rfl, by decide⟩

/-- An environment in which `virtualenv` is not importable and every
executed command exits with code 2 and stdout `boom`. -/
def failEnv : PyEnv :=
  { whichOk := fun _ => true
    importVersion := none
    run_all := fun _ => ⟨2, "boom", ""⟩ }

/-- An environment in which `virtualenv` is not importable and every
executed command reports retcode -1 (e.g. killed by a signal) with a
parsable version string on stdout. -/
def negProbeEnv : PyEnv :=
  { whichOk := fun _ => true
    importVersion := none
    run_all := fun _ => ⟨-1, "1.9.1", ""⟩ }

/-- C9 counterexample: the version probe exits with the non-zero code -1,
yet nothing is raised — line 130 tests `ret['retcode'] > 0`, so a
negative probe exit is not treated as failure; its stdout is parsed and
`create` runs to completion. -/
theorem negative_probe_exit_cex :
    (negProbeEnv.run_all ("virtualenv" ++ " --version")).retcode ≠ 0 ∧
    negProbeEnv.importVersion = none ∧
    create { path := "/tmp/env" } negProbeEnv = .ok ⟨-1, "1.9.1", ""⟩ ∧
    ∀ c, create { path := "/tmp/env" } negProbeEnv ≠
      .error (.versionProbeFailed c) := by
  refine ⟨by decide, rfl, rfl, ?_⟩
  intro c h
  rw [show create { path := "/tmp/env" } negProbeEnv = .ok ⟨-1, "1.9.1", ""⟩
    from rfl] at h
  exact Except.noConfusion h

/-- C9 (amended): a non-zero exit code from the final creation command is
not raised as a typed error — the executor's structured result is
returned unchanged (line 223) — while a *positive* exit code from the
version probe on the legacy branch is fatal (`VersionProbeFailed`, lines
129-134); a non-positive (e.g. negative) probe exit code is not treated
as probe failure: the probe's stdout is parsed and no `VersionProbeFailed`
can arise. -/
theorem nonzero_exit_passthrough (opts : CreationOptions) (env : PyEnv)
    (cmd : List String) :
    (create_cmd opts env = .ok cmd →
      (env.run_all (pyJoin " " cmd)).retcode ≠ 0 →
      create opts env = .ok (env.run_all (pyJoin " " cmd))) ∧
    (env.importVersion = none →
      (env.run_all (resolveVenvBin opts.venv_bin ++ " --version")).retcode > 0 →
      env.whichOk (resolveVenvBin opts.venv_bin) = true →
      strContains (resolveVenvBin opts.venv_bin) "pyvenv" = false →
      ¬(opts.no_site_packages = some true ∧ opts.system_site_packages = true) →
      opts.upgrade = none → opts.symlinks = none →
      create opts env = .error (.versionProbeFailed
        (resolveVenvBin opts.venv_bin ++ " --version"))) ∧
    (env.importVersion = none →
      ¬(env.run_all (resolveVenvBin opts.venv_bin ++ " --version")).retcode > 0 →
      env.whichOk (resolveVenvBin opts.venv_bin) = true →
      strContains (resolveVenvBin opts.venv_bin) "pyvenv" = false →
      ¬(opts.no_site_packages = some true ∧ opts.system_site_packages = true) →
      opts.upgrade = none → opts.symlinks = none →
      ∀ c, create opts env ≠ .error (.versionProbeFailed c)) := by
  refine ⟨?_, ?_, ?_⟩
  · intro h _
    simp [create, h]
  · intro himp hrc hwhich hleg hmx hup hsym
    simp [create, create_cmd, hwhich, hleg, hmx, hup, hsym, getVersionInfo, himp, hrc]
  · intro himp hrc hwhich hleg hmx hup hsym c h
    have h0 := create_cmd_legacy_version opts env hwhich hleg hmx hup hsym
    rcases hp : parseVersion
        (pyStrip (env.run_all (resolveVenvBin opts.venv_bin ++ " --version")).stdout)
      with _ | v
    · simp [create, h0, getVersionInfo, himp, hrc, hp] at h
    · simp [create, h0, getVersionInfo, himp, hrc, hp] at h

/-- C9 witness: a creation command exiting 2 is returned as data on the
standard backend; a probe exiting 1 on the legacy backend is fatal; a
probe exiting -1 on the legacy backend is not. -/
theorem nonzero_exit_passthrough_w :
    create { path := "/tmp/env", venv_bin := some "pyvenv" } failEnv =
      .ok ⟨2, "boom", ""⟩ ∧
    create { path := "/tmp/env" } probeFailEnv =
      .error (.versionProbeFailed "virtualenv --version") ∧
    ∀ c, create { path := "/tmp/env" } negProbeEnv ≠
      .error (.versionProbeFailed c) :=
  ⟨(nonzero_exit_passthrough { path := "/tmp/env", venv_bin := some "pyvenv" }
      failEnv ["pyvenv", "/tmp/env"]).1 rfl (by decide),
   (nonzero_exit_passthrough { path := "/tmp/env" } probeFailEnv []).2.1 rfl
      (by decide) rfl rfl (by simp) rfl rfl,
   (nonzero_exit_passthrough { path := "/tmp/env" } negProbeEnv []).2.2 rfl
      (by decide) rfl rfl (by simp) rfl rfl⟩

/-- Every successful run of the assembler produced a token list of the
form `pre ++ [path]`: line 221 appends the path exactly once, at the end
of both branches. -/
theorem create_cmd_ok_shape (opts : CreationOptions) (env : PyEnv)
    (cmd : List String) (h : create_cmd opts env = .ok cmd) :
    ∃ pre, cmd = pre ++ [opts.path] := by
  simp only [create_cmd] at h
  repeat' split at h
  all_goals first
    | exact Except.noConfusion h
    | (injection h with h2; exact ⟨_, h2.symm⟩)

/-- C7: whenever `create` succeeds, the target path is the last token of
the assembled command, appended exactly once after all flag tokens (and
when no flag token collides with the path text, it occurs exactly once in
the whole command). -/
theorem path_is_last (opts : CreationOptions) (env : PyEnv) (cmd : List String)
    (h : create_cmd opts env = .ok cmd) :
    cmd.getLast? = some opts.path ∧
    cmd = cmd.dropLast ++ [opts.path] ∧
    (opts.path ∉ cmd.dropLast → cmd.count opts.path = 1) := by
  obtain ⟨pre, rfl⟩ := create_cmd_ok_shape opts env cmd h
  refine ⟨List.getLast?_concat _, by rw [List.dropLast_concat], ?_⟩
  intro hnm
  rw [List.dropLast_concat] at hnm
  rw [List.count_append, List.count_eq_zero.mpr hnm]
  simp

/-- C7 witness: the path is the last token at a concrete input. -/
theorem path_is_last_w :
    (["pyvenv", "--upgrade", "/tmp/env"] : List String).getLast? = some "/tmp/env" ∧
    (["pyvenv", "--upgrade", "/tmp/env"] : List String) =
      (["pyvenv", "--upgrade", "/tmp/env"] : List String).dropLast ++ ["/tmp/env"] ∧
    ("/tmp/env" ∉ (["pyvenv", "--upgrade", "/tmp/env"] : List String).dropLast →
      (["pyvenv", "--upgrade", "/tmp/env"] : List String).count "/tmp/env" = 1) :=
  path_is_last
    { path := "/tmp/env", venv_bin := some "pyvenv", upgrade := some true }
    sampleEnv ["pyvenv", "--upgrade", "/tmp/env"] rfl

/-- C8: the assembled command is, in order, the backend binary token,
then the backend-specific tokens (legacy order: `--no-site-packages`,
`--distribute`, `--python=`, `--extra-search-dir=`, `--never-download`,
`--prompt=`; standard order: `--upgrade`, `--symlinks`), then the common
tokens `--clear` and `--system-site-packages` (each only when its option
is true), then the path. -/
theorem command_token_order (opts : CreationOptions) (env : PyEnv) (v : List Nat) :
    (strContains (resolveVenvBin opts.venv_bin) "pyvenv" = false →
      env.whichOk (resolveVenvBin opts.venv_bin) = true →
      ¬(opts.no_site_packages = some true ∧ opts.system_site_packages = true) →
      opts.upgrade = none → opts.symlinks = none →
      getVersionInfo (resolveVenvBin opts.venv_bin) env = .ok v →
      create_cmd opts env =
        .ok ([resolveVenvBin opts.venv_bin] ++ nspToks opts ++ distToks opts v ++
          pythonToks opts ++ esdToks opts ++ ndToks opts v ++ promptToks opts ++
          (if opts.clear then ["--clear"] else []) ++
          (if opts.system_site_packages then ["--system-site-packages"] else []) ++
          [opts.path])) ∧
    (strContains (resolveVenvBin opts.venv_bin) "pyvenv" = true →
      env.whichOk (resolveVenvBin opts.venv_bin) = true →
      opts.no_site_packages = none → opts.python = none →
      opts.extra_search_dir = none → opts.never_download = none →
      opts.prompt = none →
      create_cmd opts env =
        .ok ([resolveVenvBin opts.venv_bin] ++ upgradeToks opts ++ symToks opts ++
          (if opts.clear then ["--clear"] else []) ++
          (if opts.system_site_packages then ["--system-site-packages"] else []) ++
          [opts.path])) := by
  constructor
  · intro hleg hwhich hmx hup hsym hv
    rw [create_cmd_legacy_eq opts env v hwhich hleg hmx hup hsym hv]
    simp [commonToks, List.append_assoc]
  · intro hstd hwhich hnsp hpy hesd hnd hpr
    rw [create_cmd_standard_eq opts env hwhich hstd hnsp hpy hesd hnd hpr]
    simp [commonToks, List.append_assoc]

/-- C8 witness: the spec's `pyvenv` example — with `clear` and
`system_site_packages` true the command ends with `--clear`,
`--system-site-packages`, `/tmp/env`, in that order. -/
theorem command_token_order_w :
    create_cmd { path := "/tmp/env", venv_bin := some "pyvenv", clear := true,
                 system_site_packages := true } sampleEnv =
      .ok ["pyvenv", "--clear", "--system-site-packages", "/tmp/env"] :=
  (command_token_order
    { path := "/tmp/env", venv_bin := some "pyvenv", clear := true,
      system_site_packages := true } sampleEnv [1, 9, 1]).2
    rfl rfl rfl rfl rfl rfl rfl

/-- Two character lists differing at index 2 are different. -/
theorem cons3_ne {x y : Char} {a b c d : Char} {r s : List Char} (h : x ≠ y) :
    a :: b :: x :: r ≠ c :: d :: y :: s := by
  intro he
  injection he with h1 he
  injection he with h2 he
  injection he with h3 _
  exact h h3

/-- A `--python=` token is never the literal `--distribute`. -/
theorem python_tok_ne_dist (p : String) : "--python=" ++ p ≠ "--distribute" := by
  intro h
  exact cons3_ne (by decide) (congrArg String.data h)

/-- A `--python=` token is never the literal `--never-download`. -/
theorem python_tok_ne_nd (p : String) : "--python=" ++ p ≠ "--never-download" := by
  intro h
  exact cons3_ne (by decide) (congrArg String.data h)

/-- An `--extra-search-dir=` token is never the literal `--distribute`. -/
theorem esd_tok_ne_dist (p : String) : "--extra-search-dir=" ++ p ≠ "--distribute" := by
  intro h
  exact cons3_ne (by decide) (congrArg String.data h)

/-- An `--extra-search-dir=` token is never the literal `--never-download`. -/
theorem esd_tok_ne_nd (p : String) : "--extra-search-dir=" ++ p ≠ "--never-download" := by
  intro h
  exact cons3_ne (by decide) (congrArg String.data h)

/-- A `--prompt=` token is never the literal `--distribute`. -/
theorem prompt_tok_ne_dist (p : String) : "--prompt=" ++ p ≠ "--distribute" := by
  intro h
  exact cons3_ne (by decide) (congrArg String.data h)

/-- A `--prompt=` token is never the literal `--never-download`. -/
theorem prompt_tok_ne_nd (p : String) : "--prompt=" ++ p ≠ "--never-download" := by
  intro h
  exact cons3_ne (by decide) (congrArg String.data h)

/-- The only token `nspToks` can emit. -/
theorem mem_nspToks {opts : CreationOptions} {t : String} (h : t ∈ nspToks opts) :
    t = "--no-site-packages" := by
  unfold nspToks at h
  split at h
  · simpa using h
  · simp at h

/-- A token of `distToks` is `--distribute`, emitted only when
`distribute` is set and the version is below `(1, 10)`. -/
theorem mem_distToks {opts : CreationOptions} {v : List Nat} {t : String}
    (h : t ∈ distToks opts v) :
    t = "--distribute" ∧ opts.distribute = true ∧ tupGe v [1, 10] = false := by
  unfold distToks at h
  split at h
  · split at h
    · simp at h
    · rename_i h1 h2
      simp only [List.mem_singleton] at h
      exact ⟨h, h1, Bool.not_eq_true _ ▸ h2⟩
  · simp at h

/-- A token of `pythonToks` is `--python=` followed by the value. -/
theorem mem_pythonToks {opts : CreationOptions} {t : String}
    (h : t ∈ pythonToks opts) :
    ∃ p, opts.python = some p ∧ t = "--python=" ++ p := by
  unfold pythonToks at h
  split at h
  · rename_i p heq
    split at h
    · simp at h
    · simp only [List.mem_singleton] at h
      exact ⟨p, heq, h⟩
  · simp at h

/-- A token of `esdToks` is `--extra-search-dir=` followed by an entry. -/
theorem mem_esdToks {opts : CreationOptions} {t : String}
    (h : t ∈ esdToks opts) :
    ∃ e, t = "--extra-search-dir=" ++ e := by
  unfold esdToks at h
  split at h
  · simp at h
  · rcases List.mem_map.mp h with ⟨e, _, he⟩
    exact ⟨e, he.symm⟩
  · rcases List.mem_map.mp h with ⟨e, _, he⟩
    exact ⟨e, he.symm⟩

/-- A token of `ndToks` is `--never-download`, emitted only when
`never_download` is set and the version is below `(1, 10)`. -/
theorem mem_ndToks {opts : CreationOptions} {v : List Nat} {t : String}
    (h : t ∈ ndToks opts v) :
    t = "--never-download" ∧ opts.never_download = some true ∧
      tupGe v [1, 10] = false := by
  unfold ndToks at h
  split at h
  · split at h
    · simp at h
    · rename_i h1 h2
      simp only [List.mem_singleton] at h
      exact ⟨h, h1, Bool.not_eq_true _ ▸ h2⟩
  · simp at h

/-- A token of `promptToks` is `--prompt=` followed by the value. -/
theorem mem_promptToks {opts : CreationOptions} {t : String}
    (h : t ∈ promptToks opts) :
    ∃ p, t = "--prompt=" ++ p := by
  unfold promptToks at h
  split at h
  · rename_i p heq
    split at h
    · simp at h
    · simp only [List.mem_singleton] at h
      exact ⟨p, h⟩
  · simp at h

/-- A token of `commonToks` is `--clear` or `--system-site-packages`. -/
theorem mem_commonToks {opts : CreationOptions} {t : String}
    (h : t ∈ commonToks opts) :
    t = "--clear" ∨ t = "--system-site-packages" := by
  unfold commonToks at h
  rcases List.mem_append.mp h with h1 | h1
  · left
    split at h1
    · simpa using h1
    · simp at h1
  · right
    split at h1
    · simpa using h1
    · simp at h1

/-- C5: on the legacy backend with `distribute = True`, the assembled
command contains the token `--distribute` exactly when the probed version
is below `(1, 10)` under Python tuple comparison; when the version is at
least `(1, 10)` the flag is suppressed (only a log note is emitted).  The
same `(1, 10)`-gated suppression applies to `never_download` and
`--never-download`.  (The binary and path tokens are assumed not to be
the literal flag texts themselves.) -/
theorem distribute_version_gate (opts : CreationOptions) (env : PyEnv) (v : List Nat)
    (hwhich : env.whichOk (resolveVenvBin opts.venv_bin) = true)
    (hleg : strContains (resolveVenvBin opts.venv_bin) "pyvenv" = false)
    (hmx : ¬(opts.no_site_packages = some true ∧ opts.system_site_packages = true))
    (hup : opts.upgrade = none)
    (hsym : opts.symlinks = none)
    (hv : getVersionInfo (resolveVenvBin opts.venv_bin) env = .ok v)
    (hbin1 : resolveVenvBin opts.venv_bin ≠ "--distribute")
    (hbin2 : resolveVenvBin opts.venv_bin ≠ "--never-download")
    (hpath1 : opts.path ≠ "--distribute")
    (hpath2 : opts.path ≠ "--never-download") :
    ∃ cmd, create_cmd opts env = .ok cmd ∧
      (opts.distribute = true →
        (tupGe v [1, 10] = true → "--distribute" ∉ cmd) ∧
        (tupGe v [1, 10] = false → "--distribute" ∈ cmd)) ∧
      (opts.never_download = some true →
        (tupGe v [1, 10] = true → "--never-download" ∉ cmd) ∧
        (tupGe v [1, 10] = false → "--never-download" ∈ cmd)) := by
  refine ⟨_, create_cmd_legacy_eq opts env v hwhich hleg hmx hup hsym hv, ?_, ?_⟩
  · intro hd
    constructor
    · intro hge hmem
      simp only [List.mem_append, List.mem_singleton] at hmem
      rcases hmem with ((((((((h0 | h1) | h2) | h3) | h4) | h5) | h6) | h7) | h8)
      · exact hbin1 h0.symm
      · exact absurd (mem_nspToks h1) (by decide)
      · exact absurd (mem_distToks h2).2.2 (by simp [hge])
      · obtain ⟨p, _, hp⟩ := mem_pythonToks h3
        exact python_tok_ne_dist p hp.symm
      · obtain ⟨e, he⟩ := mem_esdToks h4
        exact esd_tok_ne_dist e he.symm
      · exact absurd (mem_ndToks h5).1 (by decide)
      · obtain ⟨p, hp⟩ := mem_promptToks h6
        exact prompt_tok_ne_dist p hp.symm
      · rcases mem_commonToks h7 with hc | hc <;> exact absurd hc (by decide)
      · exact hpath1 h8.symm
    · intro hlt
      simp [List.mem_append, distToks, hd, hlt]
  · intro hnd
    constructor
    · intro hge hmem
      simp only [List.mem_append, List.mem_singleton] at hmem
      rcases hmem with ((((((((h0 | h1) | h2) | h3) | h4) | h5) | h6) | h7) | h8)
      · exact hbin2 h0.symm
      · exact absurd (mem_nspToks h1) (by decide)
      · exact absurd (mem_distToks h2).1 (by decide)
      · obtain ⟨p, _, hp⟩ := mem_pythonToks h3
        exact python_tok_ne_nd p hp.symm
      · obtain ⟨e, he⟩ := mem_esdToks h4
        exact esd_tok_ne_nd e he.symm
      · exact absurd (mem_ndToks h5).2.2 (by simp [hge])
      · obtain ⟨p, hp⟩ := mem_promptToks h6
        exact prompt_tok_ne_nd p hp.symm
      · rcases mem_commonToks h7 with hc | hc <;> exact absurd hc (by decide)
      · exact hpath2 h8.symm
    · intro hlt
      simp [List.mem_append, ndToks, hnd, hlt]

/-- C5 witness: `virtualenv` at version `(1, 9, 1)` with `distribute` and
`never_download` set emits both gated flags. -/
theorem distribute_version_gate_w :
    ∃ cmd,
      create_cmd
          { path := "/tmp/env", distribute := true, never_download := some true }
          sampleEnv = .ok cmd ∧
      (({ path := "/tmp/env", distribute := true, never_download := some true } :
          CreationOptions).distribute = true →
        (tupGe [1, 9, 1] [1, 10] = true → "--distribute" ∉ cmd) ∧
        (tupGe [1, 9, 1] [1, 10] = false → "--distribute" ∈ cmd)) ∧
      (({ path := "/tmp/env", distribute := true, never_download := some true } :
          CreationOptions).never_download = some true →
        (tupGe [1, 9, 1] [1, 10] = true → "--never-download" ∉ cmd) ∧
        (tupGe [1, 9, 1] [1, 10] = false → "--never-download" ∈ cmd)) :=
  distribute_version_gate
    { path := "/tmp/env", distribute := true, never_download := some true }
    sampleEnv [1, 9, 1] rfl rfl (by simp) rfl rfl rfl
    (by decide) (by decide) (by decide) (by decide)

/-- An `--extra-search-dir=` token starts with its own prefix. -/
theorem tokStarts_esd (e : String) :
    tokStarts ("--extra-search-dir=" ++ e) "--extra-search-dir=" = true := by
  show List.isPrefixOf ("--extra-search-dir=".data)
    ("--extra-search-dir=".data ++ e.data) = true
  rw [List.isPrefixOf_iff_prefix]
  exact List.prefix_append _ _

/-- `nspToks` contributes no `--extra-search-dir=`-prefixed token. -/
theorem filterEsd_nspToks (opts : CreationOptions) :
    (nspToks opts).filter (fun t => tokStarts t "--extra-search-dir=") = [] := by
  unfold nspToks
  split <;> rfl

/-- `distToks` contributes no `--extra-search-dir=`-prefixed token. -/
theorem filterEsd_distToks (opts : CreationOptions) (v : List Nat) :
    (distToks opts v).filter (fun t => tokStarts t "--extra-search-dir=") = [] := by
  unfold distToks
  split
  · split <;> rfl
  · rfl

/-- `pythonToks` contributes no `--extra-search-dir=`-prefixed token. -/
theorem filterEsd_pythonToks (opts : CreationOptions) :
    (pythonToks opts).filter (fun t => tokStarts t "--extra-search-dir=") = [] := by
  unfold pythonToks
  split
  · split <;> rfl
  · rfl

/-- `ndToks` contributes no `--extra-search-dir=`-prefixed token. -/
theorem filterEsd_ndToks (opts : CreationOptions) (v : List Nat) :
    (ndToks opts v).filter (fun t => tokStarts t "--extra-search-dir=") = [] := by
  unfold ndToks
  split
  · split <;> rfl
  · rfl

/-- `promptToks` contributes no `--extra-search-dir=`-prefixed token. -/
theorem filterEsd_promptToks (opts : CreationOptions) :
    (promptToks opts).filter (fun t => tokStarts t "--extra-search-dir=") = [] := by
  unfold promptToks
  split
  · split <;> rfl
  · rfl

/-- `commonToks` contributes no `--extra-search-dir=`-prefixed token. -/
theorem filterEsd_commonToks (opts : CreationOptions) :
    (commonToks opts).filter (fun t => tokStarts t "--extra-search-dir=") = [] := by
  unfold commonToks
  split <;> split <;> rfl

/-- For a comma-containing string argument, `esdToks` is exactly one
`--extra-search-dir=` token per comma-separated, stripped element, in
order — and all of its tokens carry the prefix. -/
theorem filterEsd_esdToks (opts : CreationOptions) (s : String)
    (hesd : opts.extra_search_dir = some (.str s))
    (hcomma : strContains s "," = true) :
    (esdToks opts).filter (fun t => tokStarts t "--extra-search-dir=") =
      (pySplitChar s ',').map (fun e => "--extra-search-dir=" ++ pyStrip e) := by
  simp only [esdToks, hesd, hcomma, if_true]
  rw [List.filter_eq_self.mpr]
  · rw [List.map_map]
    rfl
  · intro a ha
    rcases List.mem_map.mp ha with ⟨e, _, rfl⟩
    exact tokStarts_esd e

/-- C6: on the legacy backend, a comma-containing `extra_search_dir`
string is split on commas with each element stripped, and the command
contains exactly one `--extra-search-dir=<entry>` token per element,
in order (here: every `--extra-search-dir=`-prefixed token of the
command, in order, assuming the binary and path tokens do not carry that
prefix). -/
theorem extra_search_dir_split (opts : CreationOptions) (env : PyEnv)
    (v : List Nat) (s : String)
    (hwhich : env.whichOk (resolveVenvBin opts.venv_bin) = true)
    (hleg : strContains (resolveVenvBin opts.venv_bin) "pyvenv" = false)
    (hmx : ¬(opts.no_site_packages = some true ∧ opts.system_site_packages = true))
    (hup : opts.upgrade = none)
    (hsym : opts.symlinks = none)
    (hv : getVersionInfo (resolveVenvBin opts.venv_bin) env = .ok v)
    (hesd : opts.extra_search_dir = some (.str s))
    (hcomma : strContains s "," = true)
    (hbin : tokStarts (resolveVenvBin opts.venv_bin) "--extra-search-dir=" = false)
    (hpath : tokStarts opts.path "--extra-search-dir=" = false) :
    ∃ cmd, create_cmd opts env = .ok cmd ∧
      cmd.filter (fun t => tokStarts t "--extra-search-dir=") =
        (pySplitChar s ',').map (fun e => "--extra-search-dir=" ++ pyStrip e) := by
  refine ⟨_, create_cmd_legacy_eq opts env v hwhich hleg hmx hup hsym hv, ?_⟩
  simp only [List.filter_append, filterEsd_nspToks, filterEsd_distToks,
    filterEsd_pythonToks, filterEsd_ndToks, filterEsd_promptToks,
    filterEsd_commonToks, filterEsd_esdToks opts s hesd hcomma]
  simp [List.filter_cons, hbin, hpath]

/-- C6 witness: `extra_search_dir = "a, b,c"` yields exactly
`--extra-search-dir=a`, `--extra-search-dir=b`, `--extra-search-dir=c`,
in that order. -/
theorem extra_search_dir_split_w :
    ∃ cmd,
      create_cmd { path := "/tmp/env", extra_search_dir := some (.str "a, b,c") }
          sampleEnv = .ok cmd ∧
      cmd.filter (fun t => tokStarts t "--extra-search-dir=") =
        ["--extra-search-dir=a", "--extra-search-dir=b", "--extra-search-dir=c"] :=
  extra_search_dir_split
    { path := "/tmp/env", extra_search_dir := some (.str "a, b,c") }
    sampleEnv [1, 9, 1] "a, b,c" rfl rfl (by simp) rfl rfl rfl rfl rfl rfl rfl

/-- C10: on the legacy backend, a single `extra_search_dir` string with
no comma is wrapped verbatim — no whitespace trimming — so the emitted
token is `--extra-search-dir=` followed by the exact string. -/
theorem extra_search_dir_verbatim (opts : CreationOptions) (env : PyEnv)
    (v : List Nat) (s : String)
    (hwhich : env.whichOk (resolveVenvBin opts.venv_bin) = true)
    (hleg : strContains (resolveVenvBin opts.venv_bin) "pyvenv" = false)
    (hmx : ¬(opts.no_site_packages = some true ∧ opts.system_site_packages = true))
    (hup : opts.upgrade = none)
    (hsym : opts.symlinks = none)
    (hv : getVersionInfo (resolveVenvBin opts.venv_bin) env = .ok v)
    (hesd : opts.extra_search_dir = some (.str s))
    (hnc : strContains s "," = false) :
    ∃ pre suf, create_cmd opts env =
      .ok (pre ++ ["--extra-search-dir=" ++ s] ++ suf) := by
  refine ⟨[resolveVenvBin opts.venv_bin] ++ nspToks opts ++ distToks opts v ++
    pythonToks opts, ndToks opts v ++ promptToks opts ++ commonToks opts ++
    [opts.path], ?_⟩
  rw [create_cmd_legacy_eq opts env v hwhich hleg hmx hup hsym hv]
  have he : esdToks opts = ["--extra-search-dir=" ++ s] := by
    simp [esdToks, hesd, hnc]
  rw [he]
  simp [List.append_assoc]

/-- C10 witness: `extra_search_dir = " a "` keeps its surrounding spaces
in the emitted token. -/
theorem extra_search_dir_verbatim_w :
    ∃ pre suf,
      create_cmd { path := "/tmp/env", extra_search_dir := some (.str " a ") }
          sampleEnv = .ok (pre ++ ["--extra-search-dir= a "] ++ suf) :=
  extra_search_dir_verbatim
    { path := "/tmp/env", extra_search_dir := some (.str " a ") }
    sampleEnv [1, 9, 1] " a " rfl rfl (by simp) rfl rfl rfl rfl rfl
